import Mathlib

/-!
Verification of the Marstek local-API integration and its mock-device
simulator.  The Python sources are embedded shallowly: pure functions become
Lean functions over `ℚ`/`ℤ`/`String`, Python `int()` truncation becomes
`pyTrunc`, Python dictionaries become association lists, and every source of
randomness or wall-clock time becomes an explicit parameter.
-/

namespace Marstek

/-- Python `int(x)` on a float/rational: truncation toward zero. -/
def pyTrunc (q : ℚ) : ℤ := if 0 ≤ q then ⌊q⌋ else ⌈q⌉

/-- Python `<=` on strings: lexicographic comparison of code points. -/
def charListLE : List Char → List Char → Bool
  | [], _ => true
  | _ :: _, [] => false
  | a :: as, b :: bs => if a < b then true else if b < a then false else charListLE as bs

/-- Python string `<=` lifted to `String`. -/
def pyStrLE (a b : String) : Bool := charListLE a.data b.data

/-- Python `dict.get` on an insertion-ordered association list. -/
def assocLookup {α : Type} (l : List (String × α)) (k : String) : Option α :=
  (l.find? (fun p => p.1 == k)).map Prod.snd

/-- Python `d[k] = v` on an insertion-ordered association list: replace the
value in place when the key exists, append otherwise. -/
def assocSet {α : Type} (l : List (String × α)) (k : String) (v : α) : List (String × α) :=
  if l.any (fun p => p.1 == k) then
    l.map (fun p => if p.1 == k then (k, v) else p)
  else l ++ [(k, v)]

/-- Removal of a key from an association list (Python `Path.unlink`-style
deletion in the file-system model). -/
def assocErase {α : Type} (l : List (String × α)) (k : String) : List (String × α) :=
  l.filter (fun p => !(p.1 == k))

theorem find?_key_map_set {α : Type} (l : List (String × α)) (k : String) (v : α)
    (hany : l.any (fun p => p.1 == k) = true) :
    List.find? (fun p => p.1 == k) (l.map (fun p => if p.1 == k then (k, v) else p)) =
      some (k, v) := by
  induction l with
  | nil => simp at hany
  | cons p ps ih =>
    by_cases hp : (p.1 == k) = true
    · simp only [List.map_cons, hp, if_true]
      exact List.find?_cons_of_pos _ (by simp)
    · simp only [Bool.not_eq_true] at hp
      simp only [List.any_cons, hp, Bool.false_or] at hany
      simp only [List.map_cons, hp, Bool.false_eq_true, if_false]
      rw [List.find?_cons_of_neg _ (by simp [hp])]
      exact ih hany

theorem find?_key_append_singleton {α : Type} (l : List (String × α)) (k : String) (v : α)
    (hall : ∀ q ∈ l, (q.1 == k) = false) :
    List.find? (fun p => p.1 == k) (l ++ [(k, v)]) = some (k, v) := by
  induction l with
  | nil => exact List.find?_cons_of_pos _ (by simp)
  | cons p ps ih =>
    rw [List.cons_append, List.find?_cons_of_neg _ (by simp [hall p (List.mem_cons_self p ps)])]
    exact ih (fun q hq => hall q (List.mem_cons_of_mem p hq))

theorem assocLookup_assocSet_self {α : Type} (l : List (String × α)) (k : String) (v : α) :
    assocLookup (assocSet l k v) k = some v := by
  unfold assocLookup assocSet
  by_cases hany : (l.any (fun p => p.1 == k)) = true
  · rw [if_pos hany, find?_key_map_set l k v hany]
    rfl
  · rw [if_neg hany]
    have hall : ∀ q ∈ l, (q.1 == k) = false := by
      intro q hq
      by_contra hc
      exact hany (List.any_eq_true.mpr ⟨q, hq, by simpa using hc⟩)
    rw [find?_key_append_singleton l k v hall]
    rfl

theorem assocLookup_assocErase_self {α : Type} (l : List (String × α)) (k : String) :
    assocLookup (assocErase l k) k = none := by
  unfold assocLookup assocErase
  induction l with
  | nil => simp
  | cons p ps ih =>
    by_cases hp : (p.1 == k) = true
    · simp only [List.filter_cons, hp, Bool.not_true, Bool.false_eq_true, if_false]
      exact ih
    · simp only [Bool.not_eq_true] at hp
      simp only [List.filter_cons, hp, Bool.not_false, if_true]
      rw [List.find?_cons_of_neg _ (by simp [hp])]
      exact ih

/-! ## Compatibility matrix
Embeds `custom_components/marstek/pymarstek/compatibility.py`. -/

/-- A Python runtime value as it can reach `CompatibilityMatrix.scale_value`:
`None`, `bool`, `int`, `float` (modelled exactly as a rational) or `str`. -/
inductive PyVal where
  | none
  | bool (b : Bool)
  | int (n : ℤ)
  | float (q : ℚ)
  | str (s : String)
deriving DecidableEq

/-- Python `isinstance(value, (int, float))` with `value is not None`:
`bool` passes because Python `bool` is a subtype of `int`. -/
def isNumeric : PyVal → Bool
  | .bool _ => true
  | .int _ => true
  | .float _ => true
  | _ => false

/-- Numeric content of a numeric `PyVal` (`True` counts as 1, `False` as 0). -/
def pyNum : PyVal → ℚ
  | .bool b => if b then 1 else 0
  | .int n => (n : ℚ)
  | .float q => q
  | _ => 0

/-- `_parse_firmware_version` input: `int | str | None`. -/
inductive FwInput where
  | none
  | int (n : ℤ)
  | str (s : String)

/-- `_parse_firmware_version`: `None ↦ 0`, ints pass through, strings are
parsed with `int(...)` and default to 0 on failure. -/
def parse_firmware_version : FwInput → ℤ
  | .none => 0
  | .int n => n
  | .str s => (s.toInt?).getD 0

/-- Does `\s+\d+\.\d+` match at the head of this character list?  The three
greedy pieces are deterministic because the character classes are disjoint. -/
def matchWsVersion (cs : List Char) : Bool :=
  let ws := cs.takeWhile (fun c => c.isWhitespace)
  let rest := cs.dropWhile (fun c => c.isWhitespace)
  (decide (ws ≠ [])) &&
    ((decide (rest.takeWhile Char.isDigit ≠ [])) &&
      (match rest.dropWhile Char.isDigit with
        | '.' :: rest2 => decide (rest2.takeWhile Char.isDigit ≠ [])
        | _ => false))

/-- `re.sub(r"\s+\d+\.\d+.*$", "", s)`: truncate at the leftmost position
where a whitespace-then-version token begins. -/
def stripVersionSuffix : List Char → List Char
  | [] => []
  | c :: cs => if matchWsVersion (c :: cs) then [] else c :: stripVersionSuffix cs

/-- `get_base_model`: model string without the trailing version token. -/
def get_base_model (device_model : String) : String :=
  if device_model = "" then "" else String.mk (stripVersionSuffix device_model.data)

/-- `re.search(r"(\d+\.\d+)", s)`: leftmost `\d+\.\d+` token, if any. -/
def findVersion : List Char → Option String
  | [] => Option.none
  | c :: cs =>
    if c.isDigit then
      match (c :: cs).dropWhile Char.isDigit with
      | '.' :: rest2 =>
        if rest2.takeWhile Char.isDigit ≠ [] then
          Option.some (String.mk ((c :: cs).takeWhile Char.isDigit ++
            '.' :: rest2.takeWhile Char.isDigit))
        else findVersion cs
      | _ => findVersion cs
    else findVersion cs

/-- `parse_hardware_version`: first `N.N` token in the model string,
defaulting to `"2.0"`. -/
def parse_hardware_version (device_model : String) : String :=
  if device_model = "" then "2.0"
  else match findVersion device_model.data with
    | Option.some v => v
    | Option.none => "2.0"

/-- `_normalize_model`: keep alphanumeric characters, lower-case the rest. -/
def normalizeModel (model : String) : String :=
  if model = "" then ""
  else String.mk ((model.data.filter Char.isAlphanum).map Char.toLower)

/-- Python `needle in hay` substring containment on character lists. -/
def listContainsSub (needle : List Char) : List Char → Bool
  | [] => decide (needle = [])
  | c :: cs => needle.isPrefixOf (c :: cs) || listContainsSub needle cs

/-- The closed set of known device-family tokens (`_MODEL_TOKENS`). -/
def MODEL_TOKENS : List String := ["venusa", "venusb", "venusc", "venusd", "venuse"]

/-- `get_model_key`: normalized family token of the base model, `"*"` when no
known token occurs. -/
def get_model_key (device_model : String) : String :=
  let normalized := normalizeModel (get_base_model device_model)
  match MODEL_TOKENS.find? (fun tok => listContainsSub tok.data normalized.data) with
  | Option.some tok => tok
  | Option.none => "*"

/-- The identity fields `CompatibilityMatrix.__init__` derives once. -/
structure CompatCtx where
  model_key : String
  hardware_version : String
  firmware_version : ℤ
deriving DecidableEq

/-- `CompatibilityMatrix(device_model, firmware_version)` identity
derivation. -/
def mkCompat (device_model : String) (fw : FwInput) : CompatCtx :=
  { model_key := get_model_key device_model
    hardware_version := parse_hardware_version device_model
    firmware_version := parse_firmware_version fw }

/-- `SCALING_MATRIX`: field → model key → hardware version → ordered
(firmware threshold, divisor) pairs.  Float divisors are exact rationals. -/
def SCALING_MATRIX : List (String × List (String × List (String × List (ℤ × ℚ)))) :=
  [ ("bat_temp", [("*", [("2.0", [(0, 1), (154, 1/10)]), ("3.0", [(0, 1), (139, 10)])])]),
    ("bat_cap", [("*", [("2.0", [(0, 100), (154, 1)]), ("3.0", [(0, 1), (139, 1/10)])])]),
    ("bat_capacity", [("*", [("2.0", [(0, 100), (154, 1)]), ("3.0", [(0, 1), (139, 1/10)])])]),
    ("bat_rated_capacity", [("*", [("2.0", [(0, 100), (154, 1)]), ("3.0", [(0, 1), (139, 1/10)])])]),
    ("bat_power", [("*", [("2.0", [(0, 10), (154, 1)]), ("3.0", [(0, 1)])])]),
    ("total_grid_input_energy", [("*", [("2.0", [(0, 1/10), (154, 1/100)]), ("3.0", [(0, 1)])])]),
    ("total_grid_output_energy", [("*", [("2.0", [(0, 1/10), (154, 1/100)]), ("3.0", [(0, 1)])])]),
    ("total_load_energy", [("*", [("2.0", [(0, 1/10), (154, 1/100)]), ("3.0", [(0, 1)])])]),
    ("bat_voltage", [("*", [("2.0", [(0, 100)]), ("3.0", [(0, 100)])])]),
    ("bat_current", [("*", [("2.0", [(0, 100)]), ("3.0", [(0, 100)])])]) ]

/-- The chained dictionary lookups of `scale_value`: field map, then model
key with wildcard fallback, then hardware version with wildcard fallback.
(Every stored map is non-empty, so Python truthiness equals presence.) -/
def scaleLookup (ctx : CompatCtx) (field : String) : Option (List (ℤ × ℚ)) :=
  match assocLookup SCALING_MATRIX field with
  | Option.none => Option.none
  | Option.some fieldMap =>
    match (assocLookup fieldMap ctx.model_key).or (assocLookup fieldMap "*") with
    | Option.none => Option.none
    | Option.some modelMap =>
      (assocLookup modelMap ctx.hardware_version).or (assocLookup modelMap "*")

/-- `max(applicable, key=lambda item: item[0])`: first element of maximal
first component (thresholds are unique in the matrix, so ties cannot occur). -/
def maxByFst : List (ℤ × ℚ) → Option (ℤ × ℚ)
  | [] => Option.none
  | p :: ps => Option.some (ps.foldl (fun acc q => if q.1 > acc.1 then q else acc) p)

/-- `CompatibilityMatrix.scale_value`: non-numeric values pass through, the
divisor of the largest firmware threshold not exceeding the context's
firmware version is applied, otherwise the value passes through. -/
def scale_value (ctx : CompatCtx) (value : PyVal) (field : String) : PyVal :=
  if ¬ isNumeric value then value
  else
    match scaleLookup ctx field with
    | Option.none => value
    | Option.some pairs =>
      match maxByFst (pairs.filter (fun p => p.1 ≤ ctx.firmware_version)) with
      | Option.none => value
      | Option.some sel => PyVal.float (pyNum value / sel.2)

/-! ## Battery simulator
Embeds `tools/mock_device/simulators/battery.py` and the constants of
`tools/mock_device/const.py`.  Wall-clock time, the household sub-simulator
and every `random.uniform` draw become explicit parameters. -/

def BATTERY_CAPACITY_WH : ℤ := 5120
def DEFAULT_MAX_CHARGE_POWER : ℤ := 3000
def DEFAULT_MAX_DISCHARGE_POWER : ℤ := 3000
def DEFAULT_POWER_FLUCTUATION_PCT : ℚ := 5
def SOC_MIN_DISCHARGE : ℚ := 5
def SOC_TAPER_DISCHARGE : ℚ := 10
def SOC_TAPER_CHARGE : ℚ := 90
def SOC_RESERVE : ℚ := 10
def STATUS_CHARGING : String := "Buying"
def STATUS_DISCHARGING : String := "Selling"
def STATUS_IDLE : String := "Idle"

/-- A manual schedule entry exactly as `set_mode` constructs it. -/
structure Schedule where
  time_num : ℤ
  start_time : String
  end_time : String
  week_set : ℕ
  power : ℤ
  enable : Bool
deriving DecidableEq

/-- The mutable attributes of `BatterySimulator` that the embedded
operations read or write. -/
structure SimState where
  soc : ℚ
  capacity_wh : ℤ
  max_charge_power : ℤ
  max_discharge_power : ℤ
  mode : String
  target_power : ℤ
  actual_power : ℤ
  gross_household_consumption : ℤ
  grid_power : ℤ
  em_a_power : ℤ
  em_b_power : ℤ
  em_c_power : ℤ
  passive_end_time : Option ℚ
  manual_schedules : List Schedule
  battery_temp : ℚ
  total_pv_energy : ℚ
  total_grid_output_energy : ℚ
  total_grid_input_energy : ℚ
  total_load_energy : ℚ
  power_fluctuation_pct : ℚ
deriving DecidableEq

/-- `BatterySimulator.__init__` with the default capacity and power limits
(`base_temp` is the constant 25.0, PV stays 0 for this device). -/
def initSim (initial_soc : ℤ) : SimState :=
  { soc := (initial_soc : ℚ)
    capacity_wh := BATTERY_CAPACITY_WH
    max_charge_power := DEFAULT_MAX_CHARGE_POWER
    max_discharge_power := DEFAULT_MAX_DISCHARGE_POWER
    mode := "Auto"
    target_power := 0
    actual_power := 0
    gross_household_consumption := 0
    grid_power := 0
    em_a_power := 0
    em_b_power := 0
    em_c_power := 0
    passive_end_time := Option.none
    manual_schedules := []
    battery_temp := 25
    total_pv_energy := 0
    total_grid_output_energy := 0
    total_grid_input_energy := 0
    total_load_energy := 0
    power_fluctuation_pct := DEFAULT_POWER_FLUCTUATION_PCT }

/-- Wall-clock facts a recompute reads: `now.strftime("%H:%M")`,
`now.weekday()` and `datetime.now().hour`. -/
structure ClockEnv where
  currentTime : String
  currentDay : ℕ
  hour : ℤ

/-- One recompute's worth of nondeterminism: the household consumption
sample and the four `random.uniform` draws. -/
structure PowerEnv where
  household : ℤ
  fluct : ℚ
  aRand : ℚ
  bRand : ℚ
  heatR : ℚ
  coolR : ℚ

/-- `BatterySimulator._get_active_schedule`: first enabled schedule whose
week bitmask contains today and whose `start <= now <= end` (Python string
comparison, both ends inclusive). -/
def getActiveSchedule : List Schedule → String → ℕ → Option Schedule
  | [], _, _ => Option.none
  | s :: rest, t, d =>
    if s.enable = false then getActiveSchedule rest t d
    else if s.week_set &&& (1 <<< d) = 0 then getActiveSchedule rest t d
    else if pyStrLE s.start_time t && pyStrLE t s.end_time then Option.some s
    else getActiveSchedule rest t d

/-- `BatterySimulator._calculate_target_power` (reads the already refreshed
`gross_household_consumption`; the AI night branch returns early exactly as
the source does). -/
def calculateTargetPower (st : SimState) (clock : ClockEnv) : ℤ :=
  if st.mode = "Passive" then st.target_power
  else if st.mode = "Manual" then
    match getActiveSchedule st.manual_schedules clock.currentTime clock.currentDay with
    | Option.some s => s.power
    | Option.none => 0
  else if st.mode = "Auto" then
    if st.soc ≤ SOC_RESERVE then 0
    else min st.gross_household_consumption st.max_discharge_power
  else if st.mode = "AI" then
    if st.soc ≤ 15 then 0
    else if 0 ≤ clock.hour ∧ clock.hour < 6 then
      if st.soc < 50 then -(pyTrunc ((st.max_charge_power : ℚ) * (1/2))) else 0
    else
      let target := st.gross_household_consumption
      let target :=
        if 9 ≤ clock.hour ∧ clock.hour < 17 then
          if st.soc > 60 then pyTrunc ((target : ℚ) * (1/2))
          else pyTrunc ((target : ℚ) * (3/10))
        else target
      let target :=
        if 17 ≤ clock.hour ∧ clock.hour < 22 then
          if st.soc < 30 then pyTrunc ((target : ℚ) * (1/2)) else target
        else target
      min target st.max_discharge_power
  else 0

/-- `BatterySimulator._apply_soc_limits`. -/
def applySocLimits (soc : ℚ) (target : ℤ) : ℤ :=
  if 0 < target ∧ soc ≤ SOC_MIN_DISCHARGE then 0
  else if target < 0 ∧ 100 ≤ soc then 0
  else
    let target :=
      if target < 0 ∧ SOC_TAPER_CHARGE < soc then
        pyTrunc ((target : ℚ) * ((100 - soc) / (100 - SOC_TAPER_CHARGE)))
      else target
    let target :=
      if 0 < target ∧ soc < SOC_TAPER_DISCHARGE then
        pyTrunc ((target : ℚ) *
          (max 0 ((soc - SOC_MIN_DISCHARGE) / (SOC_TAPER_DISCHARGE - SOC_MIN_DISCHARGE))))
      else target
    target

/-- `BatterySimulator._update_phase_powers`: ≈40/35/25 split of
`grid_power`, phase C absorbing the rounding remainder. -/
def updatePhasePowers (st : SimState) (aRand bRand : ℚ) : SimState :=
  let total := st.grid_power
  let ea := pyTrunc ((total : ℚ) * (2/5 + aRand))
  let eb := pyTrunc ((total : ℚ) * (7/20 + bRand))
  { st with em_a_power := ea, em_b_power := eb, em_c_power := total - ea - eb }

/-- Steps 2–7 shared by a tick and by `_apply_immediate_power_update`:
refresh household consumption, compute and clamp the target, apply the
±`power_fluctuation_pct`% fluctuation, derive grid power and phase split. -/
def computePower (st : SimState) (env : PowerEnv) (clock : ClockEnv) : SimState :=
  let st := { st with gross_household_consumption := env.household }
  let target := calculateTargetPower st clock
  let target := applySocLimits st.soc target
  let target := max (-st.max_charge_power) (min st.max_discharge_power target)
  let ap :=
    if target ≠ 0 then
      pyTrunc ((target : ℚ) + (target : ℚ) * (env.fluct * st.power_fluctuation_pct / 100))
    else 0
  let st := { st with actual_power := ap,
                      grid_power := st.gross_household_consumption - ap }
  updatePhasePowers st env.aRand env.bRand

/-- The passive-expiry check at the top of `_update_state` (the Python
truthiness test on `passive_end_time` is false for `None` and for `0.0`). -/
def passiveExpiryStep (st : SimState) (now : ℚ) : SimState :=
  if st.mode = "Passive" then
    match st.passive_end_time with
    | Option.some te =>
      if te ≠ 0 ∧ te ≤ now then
        { st with mode := "Auto", target_power := 0, passive_end_time := Option.none }
      else st
    | Option.none => st
  else st

/-- `BatterySimulator._update_energy_stats`. -/
def updateEnergyStats (st : SimState) (elapsed_seconds : ℚ) : SimState :=
  let hours := elapsed_seconds / 3600
  let st :=
    if 0 < st.grid_power then
      { st with total_grid_input_energy :=
          st.total_grid_input_energy + (st.grid_power : ℚ) * hours }
    else
      { st with total_grid_output_energy :=
          st.total_grid_output_energy + ((|st.grid_power| : ℤ) : ℚ) * hours }
  { st with total_load_energy :=
      st.total_load_energy + (st.gross_household_consumption : ℚ) * hours }

/-- `BatterySimulator._update_temperature` (`base_temp` is 25.0). -/
def updateTemperature (st : SimState) (heatR coolR : ℚ) : SimState :=
  let t :=
    if 100 < |st.actual_power| then
      st.battery_temp +
        (min (((|st.actual_power| : ℤ) : ℚ) / (st.max_discharge_power : ℚ)) 1) * (3/10) * heatR
    else if 25 < st.battery_temp then st.battery_temp - (1/10) * coolR
    else if st.battery_temp < 25 then st.battery_temp + (1/10) * coolR
    else st.battery_temp
  { st with battery_temp := max 15 (min 50 t) }

/-- `BatterySimulator._update_state`: passive expiry, power recompute, SOC
integration with clamping, energy statistics and the thermal model.  (The
best-effort persist callback mutates no simulator state and is omitted.) -/
def updateState (st : SimState) (elapsed_seconds now : ℚ) (env : PowerEnv)
    (clock : ClockEnv) : SimState :=
  let st := passiveExpiryStep st now
  let st := computePower st env clock
  let hours := elapsed_seconds / 3600
  let energy_wh := (st.actual_power : ℚ) * hours
  let soc_change := -(energy_wh / (st.capacity_wh : ℚ)) * 100
  let st := { st with soc := max 0 (min 100 (st.soc + soc_change)) }
  let st := updateEnergyStats st elapsed_seconds
  updateTemperature st env.heatR env.coolR

/-- The optional `config` dictionary accepted by `set_mode` (absent keys are
`Option.none`; an absent or empty dictionary is `Option.none` at the call
site since both are falsy). -/
structure ModeConfig where
  power : Option ℤ
  cd_time : Option ℚ
  time_num : Option ℤ
  start_time : Option String
  end_time : Option String
  week_set : Option ℕ
  enable : Option ℤ

/-- An all-absent `config` dictionary. -/
def ModeConfig.empty : ModeConfig :=
  { power := Option.none, cd_time := Option.none, time_num := Option.none,
    start_time := Option.none, end_time := Option.none, week_set := Option.none,
    enable := Option.none }

/-- Slot replacement for manual schedules: the first schedule with the same
`time_num` is replaced in place, otherwise the new schedule is appended. -/
def upsertSchedule : List Schedule → ℤ → Schedule → List Schedule
  | [], _, sched => [sched]
  | s :: rest, slot, sched =>
    if s.time_num = slot then sched :: rest else s :: upsertSchedule rest slot sched

/-- `BatterySimulator.set_mode`: store the new mode, apply the Passive or
Manual configuration, then run the immediate out-of-band recompute. -/
def setMode (st : SimState) (mode : String) (config : Option ModeConfig) (now : ℚ)
    (env : PowerEnv) (clock : ClockEnv) : SimState :=
  let st := { st with mode := mode }
  if hp : mode = "Passive" ∧ config.isSome then
    let cfg := config.get hp.2
    let st := { st with target_power := cfg.power.getD 0,
                        passive_end_time := Option.some (now + cfg.cd_time.getD 3600) }
    computePower st env clock
  else if hm : mode = "Manual" ∧ config.isSome then
    let cfg := config.get hm.2
    let slot := cfg.time_num.getD 0
    let sched : Schedule :=
      { time_num := slot
        start_time := cfg.start_time.getD "00:00"
        end_time := cfg.end_time.getD "23:59"
        week_set := cfg.week_set.getD 127
        power := cfg.power.getD 0
        enable := decide (cfg.enable.getD 1 = 1) }
    let st := { st with manual_schedules := upsertSchedule st.manual_schedules slot sched }
    computePower st env clock
  else computePower st env clock

/-- `BatterySimulator.apply_persistent_state` input: each key may be absent,
in which case the current attribute is kept (`float(...)` is the identity in
the rational model). -/
structure PersistSnap where
  soc : Option ℚ
  total_pv_energy : Option ℚ
  total_grid_output_energy : Option ℚ
  total_grid_input_energy : Option ℚ
  total_load_energy : Option ℚ

/-- `BatterySimulator.apply_persistent_state`. -/
def applyPersistentState (st : SimState) (snap : PersistSnap) : SimState :=
  { st with
    soc := snap.soc.getD st.soc
    total_pv_energy := snap.total_pv_energy.getD st.total_pv_energy
    total_grid_output_energy := snap.total_grid_output_energy.getD st.total_grid_output_energy
    total_grid_input_energy := snap.total_grid_input_energy.getD st.total_grid_input_energy
    total_load_energy := snap.total_load_energy.getD st.total_load_energy }

/-- The fields of `BatterySimulator.get_state` the claims read. -/
structure StateView where
  soc : ℤ
  power : ℤ
  mode : String
  status : String
deriving DecidableEq

/-- `BatterySimulator.get_state`, restricted to the claim-relevant fields:
the status label is charging below −50 W, discharging above +50 W, idle
otherwise. -/
def getStateView (st : SimState) : StateView :=
  { soc := pyTrunc st.soc
    power := st.actual_power
    mode := st.mode
    status :=
      if st.actual_power < -50 then STATUS_CHARGING
      else if 50 < st.actual_power then STATUS_DISCHARGING
      else STATUS_IDLE }

/-! ## PV status handler
Embeds `handle_pv_get_status` from `tools/mock_device/handlers.py` for
numeric channel powers. -/

/-- One entry of the `pv_channels` list in the PV state. -/
structure PVChannel where
  channel : ℤ
  pv_power : ℚ
  pv_voltage : ℚ
  pv_current : ℚ
deriving DecidableEq

/-- `_to_deciwatts`: only channel `None` (single-channel shape) or channel 1
is multiplied by 10; every other channel passes through unchanged. -/
def toDeciwatts (value : ℚ) (channel : Option ℤ) : ℚ :=
  if channel ≠ Option.none ∧ channel ≠ Option.some 1 then value else value * 10

/-- Rendering of one channel into the multi-channel result dictionary
(channels outside 1..4 are skipped). -/
def renderChannel (result : List (String × ℚ)) (c : PVChannel) : List (String × ℚ) :=
  if c.channel < 1 ∨ 4 < c.channel then result
  else
    let pfx := "pv" ++ toString c.channel ++ "_"
    let result := assocSet result (pfx ++ "power") (toDeciwatts c.pv_power (Option.some c.channel))
    let result := assocSet result (pfx ++ "voltage") c.pv_voltage
    let result := assocSet result (pfx ++ "current") c.pv_current
    assocSet result (pfx ++ "state") (if 0 < c.pv_power then 1 else 0)

/-- The multi-channel (`pv1_` .. `pv4_`) result of `handle_pv_get_status`,
built from the first four entries of `pv_channels`. -/
def handlePvMultiResult (channels : List PVChannel) : List (String × ℚ) :=
  (channels.take 4).foldl renderChannel [("id", 0)]

/-- The single-channel result of `handle_pv_get_status`. -/
def handlePvSingleResult (pv_power pv_voltage pv_current : ℚ) : List (String × ℚ) :=
  [("id", 0), ("pv_power", toDeciwatts pv_power Option.none),
   ("pv_voltage", pv_voltage), ("pv_current", pv_current)]

/-! ## Persistent state files
Embeds `load_persistent_state` / `save_persistent_state` /
`reset_persistent_state` from `tools/mock_device/utils.py`.  The file system
is a path-keyed dictionary whose entries hold the parsed JSON value of the
file's text: `json.loads (json.dumps payload)` is the identity on
JSON-representable payloads, so serialization is modelled as the identity. -/

/-- A JSON value as produced by `json.loads`. -/
inductive JVal where
  | null
  | bool (b : Bool)
  | num (q : ℚ)
  | str (s : String)
  | arr (xs : List JVal)
  | obj (fields : List (String × JVal))

/-- Is this payload a Python `dict` (`isinstance(payload, dict)`)? -/
def JVal.isObj : JVal → Bool
  | .obj _ => true
  | _ => false

/-- The modelled state directory content: one JSON document per path. -/
def FileSys : Type := List (String × JVal)

/-- `_state_file_path`: `<dir>/<mac with ":" removed, lower-cased>.json`. -/
def stateFilePath (ble_mac : String) (state_dir : String) : String :=
  state_dir ++ "/" ++ (ble_mac.replace ":" "").toLower ++ ".json"

/-- `save_persistent_state`: write the serialized state at the device's
state-file path. -/
def save_persistent_state (fs : FileSys) (ble_mac state_dir : String) (state : JVal) :
    FileSys :=
  assocSet fs (stateFilePath ble_mac state_dir) state

/-- `load_persistent_state`: `None` if the file is absent, the parsed
payload if it is a dict, `None` otherwise. -/
def load_persistent_state (fs : FileSys) (ble_mac state_dir : String) : Option JVal :=
  match assocLookup fs (stateFilePath ble_mac state_dir) with
  | Option.none => Option.none
  | Option.some payload => if payload.isObj then Option.some payload else Option.none

/-- `reset_persistent_state`: remove the file (missing files are ignored). -/
def reset_persistent_state (fs : FileSys) (ble_mac state_dir : String) : FileSys :=
  assocErase fs (stateFilePath ble_mac state_dir)

/-! ## Selection of the scaling divisor (claims C1 and C10) -/

theorem foldlMax_result (ps : List (ℤ × ℚ)) (p : ℤ × ℚ) :
    (ps.foldl (fun acc q => if q.1 > acc.1 then q else acc) p = p ∨
      ps.foldl (fun acc q => if q.1 > acc.1 then q else acc) p ∈ ps) ∧
    p.1 ≤ (ps.foldl (fun acc q => if q.1 > acc.1 then q else acc) p).1 ∧
    ∀ q ∈ ps, q.1 ≤ (ps.foldl (fun acc q => if q.1 > acc.1 then q else acc) p).1 := by
  induction ps generalizing p with
  | nil => exact ⟨Or.inl rfl, le_refl _, by simp⟩
  | cons q qs ih =>
    obtain ⟨hmem, hinit, hall⟩ := ih (if q.1 > p.1 then q else p)
    have hstep : (if q.1 > p.1 then q else p).1 = p.1 ∨ (if q.1 > p.1 then q else p) = q := by
      by_cases hq : q.1 > p.1
      · exact Or.inr (if_pos hq)
      · exact Or.inl (by rw [if_neg hq])
    refine ⟨?_, ?_, ?_⟩
    · simp only [List.foldl_cons]
      rcases hmem with h | h
      · rw [h]
        by_cases hq : q.1 > p.1
        · exact Or.inr (by rw [if_pos hq]; exact List.mem_cons_self _ _)
        · exact Or.inl (by rw [if_neg hq])
      · exact Or.inr (List.mem_cons_of_mem _ h)
    · simp only [List.foldl_cons]
      refine le_trans ?_ hinit
      by_cases hq : q.1 > p.1
      · rw [if_pos hq]; exact le_of_lt hq
      · rw [if_neg hq]
    · intro r hr
      simp only [List.foldl_cons]
      rcases List.mem_cons.mp hr with h | h
      · subst h
        refine le_trans ?_ hinit
        by_cases hq : r.1 > p.1
        · rw [if_pos hq]
        · rw [if_neg hq]; exact le_of_not_lt hq
      · exact hall r h

theorem maxByFst_spec (l : List (ℤ × ℚ)) (m : ℤ × ℚ) (h : maxByFst l = Option.some m) :
    m ∈ l ∧ ∀ q ∈ l, q.1 ≤ m.1 := by
  cases l with
  | nil => simp [maxByFst] at h
  | cons p ps =>
    obtain ⟨hmem, hinit, hall⟩ := foldlMax_result ps p
    have hm : ps.foldl (fun acc q => if q.1 > acc.1 then q else acc) p = m :=
      Option.some.inj h
    rw [hm] at hmem hinit hall
    constructor
    · rcases hmem with h1 | h1
      · rw [h1]; exact List.mem_cons_self _ _
      · exact List.mem_cons_of_mem _ h1
    · intro q hq
      rcases List.mem_cons.mp hq with h1 | h1
      · rw [h1]; exact hinit
      · exact hall q h1

/-- C1: for every numeric raw value, every field present in the scaling
matrix, and every compatibility context, `scale_value` divides the raw value
by the divisor of the (threshold, divisor) pair with the largest firmware
threshold not exceeding the context's firmware version, and returns the raw
value unchanged when no threshold (or no table entry) qualifies; under model
"VenusE" (hardware defaulting to "2.0"), `scale_value 1000 "bat_power"` is
100 at firmware 100 and 1000 at firmware 200. -/
theorem scale_value_largest_threshold :
    (∀ (value : PyVal) (field : String) (ctx : CompatCtx) (pairs : List (ℤ × ℚ))
        (t : ℤ) (d : ℚ),
        isNumeric value = true →
        scaleLookup ctx field = Option.some pairs →
        (pairs.map Prod.fst).Nodup →
        (t, d) ∈ pairs →
        t ≤ ctx.firmware_version →
        (∀ p ∈ pairs, p.1 ≤ ctx.firmware_version → p.1 ≤ t) →
        scale_value ctx value field = PyVal.float (pyNum value / d)) ∧
    (∀ (value : PyVal) (field : String) (ctx : CompatCtx) (pairs : List (ℤ × ℚ)),
        scaleLookup ctx field = Option.some pairs →
        (∀ p ∈ pairs, ¬ p.1 ≤ ctx.firmware_version) →
        scale_value ctx value field = value) ∧
    (∀ (value : PyVal) (field : String) (ctx : CompatCtx),
        scaleLookup ctx field = Option.none →
        scale_value ctx value field = value) ∧
    scale_value (mkCompat "VenusE" (FwInput.int 100)) (PyVal.float 1000) "bat_power" =
      PyVal.float 100 ∧
    scale_value (mkCompat "VenusE" (FwInput.int 200)) (PyVal.float 1000) "bat_power" =
      PyVal.float 1000 := by
  have h100 : scale_value (mkCompat "VenusE" (FwInput.int 100)) (PyVal.float 1000)
      "bat_power" = PyVal.float (1000 / 10) := rfl
  have h200 : scale_value (mkCompat "VenusE" (FwInput.int 200)) (PyVal.float 1000)
      "bat_power" = PyVal.float (1000 / 1) := rfl
  refine ⟨?_, ?_, ?_, by rw [h100]; norm_num, by rw [h200]; norm_num⟩
  · intro value field ctx pairs t d hnum hlook hnodup hmem hle hmax
    set filtered := pairs.filter (fun p => decide (p.1 ≤ ctx.firmware_version)) with hfdef
    have hfilt_mem : (t, d) ∈ filtered :=
      List.mem_filter.mpr ⟨hmem, by simpa using hle⟩
    obtain ⟨f, fs, hfl⟩ : ∃ f fs, filtered = f :: fs := by
      cases hc : filtered with
      | nil => rw [hc] at hfilt_mem; simp at hfilt_mem
      | cons f fs => exact ⟨f, fs, rfl⟩
    obtain ⟨hm_mem, hm_max⟩ := maxByFst_spec filtered
      (fs.foldl (fun acc q => if q.1 > acc.1 then q else acc) f) (by rw [hfl]; rfl)
    set m := fs.foldl (fun acc q => if q.1 > acc.1 then q else acc) f with hmdef
    have hm_pairs : m ∈ pairs := (List.mem_filter.mp hm_mem).1
    have hm_le : m.1 ≤ ctx.firmware_version := by
      have := (List.mem_filter.mp hm_mem).2
      simpa using this
    have ht_le : t ≤ m.1 := hm_max (t, d) hfilt_mem
    have hfst : m.1 = t := le_antisymm (hmax m hm_pairs hm_le) ht_le
    have hmeq : m = (t, d) :=
      List.inj_on_of_nodup_map hnodup hm_pairs hmem (by simpa using hfst)
    simp only [scale_value, hnum, hlook]
    rw [← hfdef, hfl]
    simp only [maxByFst, ← hmdef, hmeq]
    simp
  · intro value field ctx pairs hlook hnone
    have hfl : pairs.filter (fun p => decide (p.1 ≤ ctx.firmware_version)) = [] := by
      rw [List.filter_eq_nil_iff]
      intro p hp
      simpa using hnone p hp
    by_cases hnum : isNumeric value = true <;>
      simp [scale_value, hnum, hlook, hfl, maxByFst]
  · intro value field ctx hlook
    by_cases hnum : isNumeric value = true <;> simp [scale_value, hnum, hlook]

/-- Witness for C1: the 154-threshold pair is selected for `bat_temp` at
firmware 200 on VenusE hardware 2.0, dividing by 1/10. -/
theorem scale_value_largest_threshold_witness :
    scale_value (mkCompat "VenusE" (FwInput.int 200)) (PyVal.float 50) "bat_temp" =
      PyVal.float 500 := by
  have h := scale_value_largest_threshold.1 (PyVal.float 50) "bat_temp"
    (mkCompat "VenusE" (FwInput.int 200)) [(0, 1), (154, 1/10)] 154 (1/10)
    (by decide) rfl (by decide)
    (List.mem_cons_of_mem _ (List.mem_cons_self _ _)) (by decide) (by decide)
  rw [h]
  norm_num [pyNum]

/-- C10: `scale_value` treats booleans as numeric because Python `bool` is a
subtype of `int`: whenever a divisor pair is selected, a boolean input comes
back as the float `(1 if b else 0) / d` rather than unchanged; concretely
`True` on a divisor-10 field becomes 0.1. -/
theorem scale_value_bool_numeric :
    (∀ (b : Bool) (field : String) (ctx : CompatCtx) (pairs : List (ℤ × ℚ))
        (t : ℤ) (d : ℚ),
        scaleLookup ctx field = Option.some pairs →
        maxByFst (pairs.filter (fun p => p.1 ≤ ctx.firmware_version)) =
          Option.some (t, d) →
        scale_value ctx (PyVal.bool b) field =
          PyVal.float ((if b then (1 : ℚ) else 0) / d) ∧
        scale_value ctx (PyVal.bool b) field ≠ PyVal.bool b) ∧
    scale_value (mkCompat "VenusE" (FwInput.int 100)) (PyVal.bool true) "bat_power" =
      PyVal.float (1/10) := by
  refine ⟨?_, rfl⟩
  intro b field ctx pairs t d hlook hsel
  constructor
  · simp [scale_value, isNumeric, hlook, hsel, pyNum]
  · simp [scale_value, isNumeric, hlook, hsel]

/-- Witness for C10: `True` scaled on `bat_power` (divisor 10) at firmware
100 on VenusE hardware 2.0 yields the float 1/10, not the boolean. -/
theorem scale_value_bool_numeric_witness :
    scale_value (mkCompat "VenusE" (FwInput.int 100)) (PyVal.bool true) "bat_power" =
      PyVal.float ((if true then (1 : ℚ) else 0) / 10) ∧
    scale_value (mkCompat "VenusE" (FwInput.int 100)) (PyVal.bool true) "bat_power" ≠
      PyVal.bool true :=
  scale_value_bool_numeric.1 true "bat_power" (mkCompat "VenusE" (FwInput.int 100))
    [(0, 10), (154, 1)] 0 10 rfl rfl

/-! ## Manual schedule selection (claim C2) -/

/-- Selection rule as the spec words it, differing from the source only in
the half-open `[start_time, end_time)` window; kept solely to compare
against `getActiveSchedule`. -/
def getActiveScheduleSpec : List Schedule → String → ℕ → Option Schedule
  | [], _, _ => Option.none
  | s :: rest, t, d =>
    if s.enable = false then getActiveScheduleSpec rest t d
    else if s.week_set &&& (1 <<< d) = 0 then getActiveScheduleSpec rest t d
    else if pyStrLE s.start_time t && !(pyStrLE s.end_time t) then Option.some s
    else getActiveScheduleSpec rest t d

/-- An enabled every-day schedule from 10:00 to 12:00. -/
def ceSchedule : Schedule :=
  { time_num := 0, start_time := "10:00", end_time := "12:00", week_set := 127,
    power := 500, enable := true }

/-- C2 counterexample: at the exact end time "12:00" the code still selects
the schedule, so its window is closed `[start, end]`, not the half-open
`[start, end)` window the claim states. -/
theorem getActiveSchedule_end_inclusive :
    getActiveSchedule [ceSchedule] "12:00" 0 = Option.some ceSchedule ∧
    getActiveScheduleSpec [ceSchedule] "12:00" 0 = Option.none := by
  exact ⟨rfl, rfl⟩

/-- C2 (amended): `_get_active_schedule` returns the first schedule in
insertion order whose enable bit is set, whose week bitmask contains the
current weekday, and whose closed `[start_time, end_time]` window contains
the current time (both ends inclusive, by Python string comparison); any
selected schedule is enabled with a set weekday bit, a schedule with
`week_set = 0` never matches, and when no schedule matches the Manual-mode
target power is 0. -/
theorem getActiveSchedule_first_match :
    (∀ (ss : List Schedule) (t : String) (d : ℕ),
        getActiveSchedule ss t d =
          ss.find? (fun s => s.enable && !(s.week_set &&& (1 <<< d) == 0) &&
            (pyStrLE s.start_time t && pyStrLE t s.end_time))) ∧
    (∀ (ss : List Schedule) (t : String) (d : ℕ) (s : Schedule),
        getActiveSchedule ss t d = Option.some s →
        s.enable = true ∧ s.week_set &&& (1 <<< d) ≠ 0 ∧
        pyStrLE s.start_time t = true ∧ pyStrLE t s.end_time = true) ∧
    (∀ (ss : List Schedule) (t : String) (d : ℕ) (s : Schedule),
        s.week_set = 0 → getActiveSchedule ss t d ≠ Option.some s) ∧
    (∀ (st : SimState) (clock : ClockEnv),
        st.mode = "Manual" →
        getActiveSchedule st.manual_schedules clock.currentTime clock.currentDay =
          Option.none →
        calculateTargetPower st clock = 0) := by
  have hchar : ∀ (ss : List Schedule) (t : String) (d : ℕ),
      getActiveSchedule ss t d =
        ss.find? (fun s => s.enable && !(s.week_set &&& (1 <<< d) == 0) &&
          (pyStrLE s.start_time t && pyStrLE t s.end_time)) := by
    intro ss t d
    induction ss with
    | nil => rfl
    | cons s rest ih =>
      simp only [getActiveSchedule]
      by_cases h1 : s.enable = false
      · rw [if_pos h1, ih, List.find?_cons_of_neg _ (by simp [h1])]
      · rw [if_neg h1]
        have h1t : s.enable = true := by
          cases hb : s.enable
          · exact absurd hb h1
          · rfl
        by_cases h2 : s.week_set &&& (1 <<< d) = 0
        · rw [if_pos h2, ih, List.find?_cons_of_neg _ (by simp [h1t, h2])]
        · rw [if_neg h2]
          by_cases h3 : (pyStrLE s.start_time t && pyStrLE t s.end_time) = true
          · rw [if_pos h3, List.find?_cons_of_pos _ (by simp [h1t, h2, h3])]
          · rw [if_neg h3, ih, List.find?_cons_of_neg _ (by simp [h1t, h2, h3])]
  have hmatched : ∀ (ss : List Schedule) (t : String) (d : ℕ) (s : Schedule),
      getActiveSchedule ss t d = Option.some s →
      s.enable = true ∧ s.week_set &&& (1 <<< d) ≠ 0 ∧
      pyStrLE s.start_time t = true ∧ pyStrLE t s.end_time = true := by
    intro ss t d s hsome
    rw [hchar] at hsome
    have hpred := List.find?_some hsome
    simp only [Bool.and_eq_true, Bool.not_eq_true', beq_eq_false_iff_ne, ne_eq] at hpred
    exact ⟨hpred.1.1, hpred.1.2, hpred.2.1, hpred.2.2⟩
  refine ⟨hchar, hmatched, ?_, ?_⟩
  · intro ss t d s hw hsome
    have h := (hmatched ss t d s hsome).2.1
    rw [hw, Nat.zero_and] at h
    exact h rfl
  · intro st clock hmode hnone
    simp [calculateTargetPower, hmode, hnone]

/-- Witness for C2: with no schedules configured, Manual mode targets 0. -/
theorem getActiveSchedule_first_match_witness :
    calculateTargetPower { initSim 50 with mode := "Manual" }
      { currentTime := "09:00", currentDay := 2, hour := 9 } = 0 :=
  getActiveSchedule_first_match.2.2.2 _ _ rfl rfl

/-! ## Field-preservation lemmas for the tick pipeline -/

theorem updateTemperature_parts (st : SimState) (h c : ℚ) :
    (updateTemperature st h c).soc = st.soc ∧
    (updateTemperature st h c).mode = st.mode ∧
    (updateTemperature st h c).target_power = st.target_power ∧
    (updateTemperature st h c).passive_end_time = st.passive_end_time ∧
    (updateTemperature st h c).grid_power = st.grid_power ∧
    (updateTemperature st h c).em_a_power = st.em_a_power ∧
    (updateTemperature st h c).em_b_power = st.em_b_power ∧
    (updateTemperature st h c).em_c_power = st.em_c_power ∧
    (updateTemperature st h c).actual_power = st.actual_power := by
  simp [updateTemperature]

theorem updateEnergyStats_parts (st : SimState) (e : ℚ) :
    (updateEnergyStats st e).soc = st.soc ∧
    (updateEnergyStats st e).mode = st.mode ∧
    (updateEnergyStats st e).target_power = st.target_power ∧
    (updateEnergyStats st e).passive_end_time = st.passive_end_time ∧
    (updateEnergyStats st e).grid_power = st.grid_power ∧
    (updateEnergyStats st e).em_a_power = st.em_a_power ∧
    (updateEnergyStats st e).em_b_power = st.em_b_power ∧
    (updateEnergyStats st e).em_c_power = st.em_c_power ∧
    (updateEnergyStats st e).actual_power = st.actual_power := by
  unfold updateEnergyStats
  split <;> simp

theorem updatePhasePowers_parts (st : SimState) (a b : ℚ) :
    (updatePhasePowers st a b).grid_power = st.grid_power ∧
    (updatePhasePowers st a b).soc = st.soc ∧
    (updatePhasePowers st a b).mode = st.mode ∧
    (updatePhasePowers st a b).target_power = st.target_power ∧
    (updatePhasePowers st a b).passive_end_time = st.passive_end_time ∧
    (updatePhasePowers st a b).actual_power = st.actual_power ∧
    (updatePhasePowers st a b).capacity_wh = st.capacity_wh := by
  simp [updatePhasePowers]

theorem computePower_parts (st : SimState) (env : PowerEnv) (clock : ClockEnv) :
    (computePower st env clock).soc = st.soc ∧
    (computePower st env clock).mode = st.mode ∧
    (computePower st env clock).target_power = st.target_power ∧
    (computePower st env clock).passive_end_time = st.passive_end_time ∧
    (computePower st env clock).capacity_wh = st.capacity_wh := by
  simp [computePower, updatePhasePowers]

theorem updatePhasePowers_sum (st : SimState) (a b : ℚ) :
    (updatePhasePowers st a b).em_a_power + (updatePhasePowers st a b).em_b_power +
      (updatePhasePowers st a b).em_c_power = (updatePhasePowers st a b).grid_power := by
  simp only [updatePhasePowers]
  ring

theorem computePower_sum (st : SimState) (env : PowerEnv) (clock : ClockEnv) :
    (computePower st env clock).em_a_power + (computePower st env clock).em_b_power +
      (computePower st env clock).em_c_power = (computePower st env clock).grid_power := by
  simp only [computePower]
  exact updatePhasePowers_sum _ _ _

/-! ## SOC clamping (claim C3) -/

/-- C3 counterexample: `__init__` stores the caller-supplied initial SOC
without clamping, so constructing the simulator with SOC 150 violates the
claimed `0 ≤ soc ≤ 100` invariant. -/
theorem initSim_soc_unclamped :
    (initSim 150).soc = 150 ∧ ¬ (initSim 150).soc ≤ 100 := by
  constructor
  · rfl
  · norm_num [initSim]

/-- C3 (amended): every tick update clamps SOC into `[0, 100]` regardless
of the prior state, and construction and `apply_persistent_state` store the
supplied SOC unclamped, so the invariant holds for all reachable states
provided the caller-supplied initial SOC and any restored SOC lie in
`[0, 100]`. -/
theorem soc_always_clamped :
    (∀ (st : SimState) (elapsed now : ℚ) (env : PowerEnv) (clock : ClockEnv),
        0 ≤ (updateState st elapsed now env clock).soc ∧
        (updateState st elapsed now env clock).soc ≤ 100) ∧
    (∀ s0 : ℤ, 0 ≤ s0 → s0 ≤ 100 →
        0 ≤ (initSim s0).soc ∧ (initSim s0).soc ≤ 100) ∧
    (∀ (st : SimState) (snap : PersistSnap) (q : ℚ),
        snap.soc = Option.some q → 0 ≤ q → q ≤ 100 →
        0 ≤ (applyPersistentState st snap).soc ∧
        (applyPersistentState st snap).soc ≤ 100) := by
  refine ⟨?_, ?_, ?_⟩
  · intro st elapsed now env clock
    simp only [updateState, (updateTemperature_parts _ _ _).1, (updateEnergyStats_parts _ _).1]
    constructor
    · exact le_max_left 0 _
    · exact max_le (by norm_num) (min_le_left 100 _)
  · intro s0 h0 h100
    simp only [initSim]
    constructor
    · exact_mod_cast h0
    · exact_mod_cast h100
  · intro st snap q hq h0 h100
    simp [applyPersistentState, hq, h0, h100]

/-- Witness for C3: the default construction at SOC 50 is in range, and a
restored SOC of 77 stays in range. -/
theorem soc_always_clamped_witness :
    (0 ≤ (initSim 50).soc ∧ (initSim 50).soc ≤ 100) ∧
    (0 ≤ (applyPersistentState (initSim 50)
        { soc := Option.some 77, total_pv_energy := Option.none,
          total_grid_output_energy := Option.none,
          total_grid_input_energy := Option.none,
          total_load_energy := Option.none }).soc ∧
      (applyPersistentState (initSim 50)
        { soc := Option.some 77, total_pv_energy := Option.none,
          total_grid_output_energy := Option.none,
          total_grid_input_energy := Option.none,
          total_load_energy := Option.none }).soc ≤ 100) :=
  ⟨soc_always_clamped.2.1 50 (by norm_num) (by norm_num),
    soc_always_clamped.2.2 _ _ 77 rfl (by norm_num) (by norm_num)⟩

/-! ## Passive-mode expiry (claim C5) -/

/-- C5: if the simulator is in Passive mode with a set (positive
wall-clock) passive end time and a tick update runs at or after that time,
then after the single update the mode is Auto, the stored target power is
0, and the passive end time is cleared, so a mode read reports "Auto". -/
theorem passive_expiry_reverts_to_auto :
    ∀ (st : SimState) (elapsed now te : ℚ) (env : PowerEnv) (clock : ClockEnv),
      st.mode = "Passive" → st.passive_end_time = Option.some te → 0 < te → te ≤ now →
      (updateState st elapsed now env clock).mode = "Auto" ∧
      (updateState st elapsed now env clock).target_power = 0 ∧
      (updateState st elapsed now env clock).passive_end_time = Option.none ∧
      (getStateView (updateState st elapsed now env clock)).mode = "Auto" := by
  intro st elapsed now te env clock hmode hpet hpos hle
  have hexp : passiveExpiryStep st now =
      { st with mode := "Auto", target_power := 0, passive_end_time := Option.none } := by
    unfold passiveExpiryStep
    rw [if_pos hmode, hpet]
    exact if_pos ⟨ne_of_gt hpos, hle⟩
  have hmode2 : (updateState st elapsed now env clock).mode = "Auto" := by
    simp only [updateState, hexp, (updateTemperature_parts _ _ _).2.1,
      (updateEnergyStats_parts _ _).2.1]
    simp [(computePower_parts _ _ _).2.1]
  refine ⟨hmode2, ?_, ?_, by simp [getStateView, hmode2]⟩
  · simp only [updateState, hexp, (updateTemperature_parts _ _ _).2.2.1,
      (updateEnergyStats_parts _ _).2.2.1]
    simp [(computePower_parts _ _ _).2.2.1]
  · simp only [updateState, hexp, (updateTemperature_parts _ _ _).2.2.2.1,
      (updateEnergyStats_parts _ _).2.2.2.1]
    simp [(computePower_parts _ _ _).2.2.2.1]

/-- Witness for C5: a concrete Passive state whose countdown ended at 100
ticks to Auto when updated at time 200. -/
theorem passive_expiry_reverts_to_auto_witness :
    (updateState { initSim 50 with mode := "Passive", passive_end_time := Option.some 100, target_power := -500 }
      1 200 { household := 0, fluct := 0, aRand := 0, bRand := 0, heatR := 1, coolR := 1 }
      { currentTime := "12:00", currentDay := 0, hour := 12 }).mode = "Auto" :=
  (passive_expiry_reverts_to_auto _ 1 200 100 _ _ rfl rfl (by norm_num) (by norm_num)).1

/-! ## SOC protection limits (claim C6) -/

/-- C6: `_apply_soc_limits` forces a positive (discharge) target to 0 at
SOC ≤ 5 and a negative (charge) target to 0 at SOC ≥ 100, linearly tapers
a discharge target below SOC 10 and a charge target above SOC 90 (with
Python `int()` truncation), and passes every other target through
unchanged. -/
theorem applySocLimits_cases :
    ∀ (soc : ℚ) (target : ℤ),
      (0 < target → soc ≤ 5 → applySocLimits soc target = 0) ∧
      (target < 0 → 100 ≤ soc → applySocLimits soc target = 0) ∧
      (target < 0 → 90 < soc → soc < 100 →
        applySocLimits soc target = pyTrunc ((target : ℚ) * ((100 - soc) / 10))) ∧
      (0 < target → 5 < soc → soc < 10 →
        applySocLimits soc target = pyTrunc ((target : ℚ) * ((soc - 5) / 5))) ∧
      (0 < target → 10 ≤ soc → applySocLimits soc target = target) ∧
      (target < 0 → soc ≤ 90 → applySocLimits soc target = target) ∧
      (target = 0 → applySocLimits soc target = target) := by
  intro soc target
  refine ⟨?_, ?_, ?_, ?_, ?_, ?_, ?_⟩
  · intro ht hs
    simp only [applySocLimits, SOC_MIN_DISCHARGE, SOC_TAPER_CHARGE, SOC_TAPER_DISCHARGE]
    split_ifs with h1 h2 h3 h4 h5 <;>
      first
        | rfl
        | exact absurd (And.intro ht hs) h1
  · intro ht hs
    simp only [applySocLimits, SOC_MIN_DISCHARGE, SOC_TAPER_CHARGE, SOC_TAPER_DISCHARGE]
    split_ifs with h1 h2 h3 h4 h5 <;>
      first
        | rfl
        | exact absurd (And.intro ht hs) h2
  · intro ht h90 h100
    simp only [applySocLimits, SOC_MIN_DISCHARGE, SOC_TAPER_CHARGE, SOC_TAPER_DISCHARGE]
    split_ifs with h1 h2 h3 h4 h5
    · exact absurd h1.1 (by omega)
    · exact absurd h2.2 (by linarith)
    · exact absurd h4.2 (by linarith)
    · norm_num
    · exact absurd (And.intro ht h90) h3
    · exact absurd (And.intro ht h90) h3
  · intro ht h5s h10
    simp only [applySocLimits, SOC_MIN_DISCHARGE, SOC_TAPER_CHARGE, SOC_TAPER_DISCHARGE]
    split_ifs with h1 h2 h3 h4 h5
    · exact absurd h1.2 (by linarith)
    · exact absurd h2.1 (by omega)
    · exact absurd h3.1 (by omega)
    · exact absurd h3.1 (by omega)
    · have h0 : (0 : ℚ) ≤ (soc - 5) / (10 - 5) := div_nonneg (by linarith) (by norm_num)
      rw [max_eq_right h0]
      norm_num
    · exact absurd (And.intro ht h10) h5
  · intro ht hs
    simp only [applySocLimits, SOC_MIN_DISCHARGE, SOC_TAPER_CHARGE, SOC_TAPER_DISCHARGE]
    split_ifs with h1 h2 h3 h4 h5
    · exact absurd h1.2 (by linarith)
    · exact absurd h2.1 (by omega)
    · exact absurd h3.1 (by omega)
    · exact absurd h3.1 (by omega)
    · exact absurd h5.2 (by linarith)
    · rfl
  · intro ht hs
    simp only [applySocLimits, SOC_MIN_DISCHARGE, SOC_TAPER_CHARGE, SOC_TAPER_DISCHARGE]
    split_ifs with h1 h2 h3 h4 h5
    · exact absurd h1.1 (by omega)
    · exact absurd h2.2 (by linarith)
    · exact absurd h3.2 (by linarith)
    · exact absurd h3.2 (by linarith)
    · exact absurd h5.1 (by omega)
    · rfl
  · intro ht
    subst ht
    simp only [applySocLimits, SOC_MIN_DISCHARGE, SOC_TAPER_CHARGE, SOC_TAPER_DISCHARGE]
    split_ifs with h1 h2 h3 h4 h5
    · exact absurd h1.1 (by omega)
    · exact absurd h2.1 (by omega)
    · exact absurd h3.1 (by omega)
    · exact absurd h3.1 (by omega)
    · exact absurd h5.1 (by omega)
    · rfl

/-- Witness for C6: a 1000 W discharge target at SOC 50 passes through
unchanged. -/
theorem applySocLimits_cases_witness : applySocLimits 50 1000 = 1000 :=
  (applySocLimits_cases 50 1000).2.2.2.2.1 (by norm_num) (by norm_num)

/-! ## Phase powers always sum to grid power (claim C7) -/

/-- C7: after every phase-power update — on a tick, on the shared recompute
and on the immediate recompute a `set_mode` call triggers — the three phase
powers sum exactly to the total grid power, for every state and every
random split draw. -/
theorem phase_powers_sum_to_grid :
    ∀ (st : SimState) (a b : ℚ) (env : PowerEnv) (clock : ClockEnv)
      (elapsed now : ℚ) (mode : String) (cfg : Option ModeConfig),
      ((updatePhasePowers st a b).em_a_power + (updatePhasePowers st a b).em_b_power +
        (updatePhasePowers st a b).em_c_power = (updatePhasePowers st a b).grid_power) ∧
      ((computePower st env clock).em_a_power + (computePower st env clock).em_b_power +
        (computePower st env clock).em_c_power = (computePower st env clock).grid_power) ∧
      ((updateState st elapsed now env clock).em_a_power +
        (updateState st elapsed now env clock).em_b_power +
        (updateState st elapsed now env clock).em_c_power =
        (updateState st elapsed now env clock).grid_power) ∧
      ((setMode st mode cfg now env clock).em_a_power +
        (setMode st mode cfg now env clock).em_b_power +
        (setMode st mode cfg now env clock).em_c_power =
        (setMode st mode cfg now env clock).grid_power) := by
  intro st a b env clock elapsed now mode cfg
  refine ⟨updatePhasePowers_sum st a b, computePower_sum st env clock, ?_, ?_⟩
  · simp only [updateState, (updateTemperature_parts _ _ _).2.2.2.2.1,
      (updateTemperature_parts _ _ _).2.2.2.2.2.1,
      (updateTemperature_parts _ _ _).2.2.2.2.2.2.1,
      (updateTemperature_parts _ _ _).2.2.2.2.2.2.2.1,
      (updateEnergyStats_parts _ _).2.2.2.2.1,
      (updateEnergyStats_parts _ _).2.2.2.2.2.1,
      (updateEnergyStats_parts _ _).2.2.2.2.2.2.1,
      (updateEnergyStats_parts _ _).2.2.2.2.2.2.2.1]
    exact computePower_sum _ _ _
  · unfold setMode
    split
    · exact computePower_sum _ _ _
    · split
      · exact computePower_sum _ _ _
      · exact computePower_sum _ _ _

/-! ## Persistent state round trip (claim C8) -/

/-- C8: for every file-system state, device MAC, state directory and
JSON-representable state dictionary, loading after saving returns exactly
the saved dictionary; loading after a reset returns `None`; and a freshly
constructed simulator uses the caller-supplied initial SOC with all four
energy counters equal to 0. -/
theorem persistent_state_round_trip :
    (∀ (fs : FileSys) (mac dir : String) (fields : List (String × JVal)),
        load_persistent_state (save_persistent_state fs mac dir (JVal.obj fields)) mac dir =
          Option.some (JVal.obj fields)) ∧
    (∀ (fs : FileSys) (mac dir : String),
        load_persistent_state (reset_persistent_state fs mac dir) mac dir = Option.none) ∧
    (∀ s0 : ℤ, (initSim s0).soc = (s0 : ℚ) ∧ (initSim s0).total_pv_energy = 0 ∧
        (initSim s0).total_grid_output_energy = 0 ∧
        (initSim s0).total_grid_input_energy = 0 ∧ (initSim s0).total_load_energy = 0) := by
  refine ⟨?_, ?_, ?_⟩
  · intro fs mac dir fields
    unfold load_persistent_state save_persistent_state
    rw [assocLookup_assocSet_self]
    rfl
  · intro fs mac dir
    unfold load_persistent_state reset_persistent_state
    rw [assocLookup_assocErase_self]
  · intro s0
    exact ⟨rfl, rfl, rfl, rfl, rfl⟩

/-! ## PV deciwatt correction on channel 1 only (claim C9) -/

theorem find?_key_map_set_ne {α : Type} (l : List (String × α)) (k k' : String) (v : α)
    (h : ¬ k = k') :
    List.find? (fun p => p.1 == k') (l.map (fun p => if p.1 == k then (k, v) else p)) =
      List.find? (fun p => p.1 == k') l := by
  induction l with
  | nil => rfl
  | cons p ps ih =>
    simp only [List.map_cons]
    by_cases hp : (p.1 == k) = true
    · have hpk : p.1 = k := by simpa using hp
      rw [if_pos hp, List.find?_cons_of_neg _ (by simp [h]),
        List.find?_cons_of_neg _ (by simp [hpk, h])]
      exact ih
    · rw [if_neg hp]
      by_cases hq : (p.1 == k') = true
      · rw [List.find?_cons_of_pos _ (by exact hq), List.find?_cons_of_pos _ (by exact hq)]
      · rw [List.find?_cons_of_neg _ (by exact hq), List.find?_cons_of_neg _ (by exact hq)]
        exact ih

theorem find?_key_append_singleton_ne {α : Type} (l : List (String × α)) (k k' : String)
    (v : α) (h : ¬ k = k') :
    List.find? (fun p => p.1 == k') (l ++ [(k, v)]) =
      List.find? (fun p => p.1 == k') l := by
  induction l with
  | nil => rw [List.nil_append, List.find?_cons_of_neg _ (by simp [h])]
  | cons p ps ih =>
    by_cases hq : (p.1 == k') = true
    · rw [List.cons_append, List.find?_cons_of_pos _ (by exact hq),
        List.find?_cons_of_pos _ (by exact hq)]
    · rw [List.cons_append, List.find?_cons_of_neg _ (by exact hq),
        List.find?_cons_of_neg _ (by exact hq)]
      exact ih

theorem assocLookup_assocSet_ne {α : Type} (l : List (String × α)) (k k' : String) (v : α)
    (h : ¬ k = k') : assocLookup (assocSet l k v) k' = assocLookup l k' := by
  unfold assocLookup assocSet
  by_cases hany : (l.any (fun p => p.1 == k)) = true
  · rw [if_pos hany, find?_key_map_set_ne l k k' v h]
  · rw [if_neg hany, find?_key_append_singleton_ne l k k' v h]

theorem renderChannel_1 (l : List (String × ℚ)) (p v i : ℚ) :
    renderChannel l ⟨1, p, v, i⟩ =
      assocSet (assocSet (assocSet (assocSet l "pv1_power" (toDeciwatts p (Option.some 1)))
        "pv1_voltage" v) "pv1_current" i) "pv1_state" (if 0 < p then 1 else 0) := by
  simp only [renderChannel]
  rw [if_neg (by omega)]
  rfl

theorem renderChannel_2 (l : List (String × ℚ)) (p v i : ℚ) :
    renderChannel l ⟨2, p, v, i⟩ =
      assocSet (assocSet (assocSet (assocSet l "pv2_power" (toDeciwatts p (Option.some 2)))
        "pv2_voltage" v) "pv2_current" i) "pv2_state" (if 0 < p then 1 else 0) := by
  simp only [renderChannel]
  rw [if_neg (by omega)]
  rfl

theorem renderChannel_3 (l : List (String × ℚ)) (p v i : ℚ) :
    renderChannel l ⟨3, p, v, i⟩ =
      assocSet (assocSet (assocSet (assocSet l "pv3_power" (toDeciwatts p (Option.some 3)))
        "pv3_voltage" v) "pv3_current" i) "pv3_state" (if 0 < p then 1 else 0) := by
  simp only [renderChannel]
  rw [if_neg (by omega)]
  rfl

theorem renderChannel_4 (l : List (String × ℚ)) (p v i : ℚ) :
    renderChannel l ⟨4, p, v, i⟩ =
      assocSet (assocSet (assocSet (assocSet l "pv4_power" (toDeciwatts p (Option.some 4)))
        "pv4_voltage" v) "pv4_current" i) "pv4_state" (if 0 < p then 1 else 0) := by
  simp only [renderChannel]
  rw [if_neg (by omega)]
  rfl


/-- C9: the ×10 power-unit correction applies to PV channel 1 only — in the
four-channel response `pv1_power` is 10 times the channel-1 raw power while
`pv2_power`, `pv3_power` and `pv4_power` equal their raw values, and in the
single-channel response `pv_power` is 10 times the raw power. -/
theorem pv_channel1_deciwatt_correction :
    (∀ (c1 c2 c3 c4 : PVChannel),
        c1.channel = 1 → c2.channel = 2 → c3.channel = 3 → c4.channel = 4 →
        assocLookup (handlePvMultiResult [c1, c2, c3, c4]) "pv1_power" =
          Option.some (c1.pv_power * 10) ∧
        assocLookup (handlePvMultiResult [c1, c2, c3, c4]) "pv2_power" =
          Option.some c2.pv_power ∧
        assocLookup (handlePvMultiResult [c1, c2, c3, c4]) "pv3_power" =
          Option.some c3.pv_power ∧
        assocLookup (handlePvMultiResult [c1, c2, c3, c4]) "pv4_power" =
          Option.some c4.pv_power) ∧
    (∀ p v c : ℚ,
        assocLookup (handlePvSingleResult p v c) "pv_power" = Option.some (p * 10)) := by
  constructor
  · intro c1 c2 c3 c4 h1 h2 h3 h4
    obtain ⟨ch1, p1, v1, i1⟩ := c1
    obtain ⟨ch2, p2, v2, i2⟩ := c2
    obtain ⟨ch3, p3, v3, i3⟩ := c3
    obtain ⟨ch4, p4, v4, i4⟩ := c4
    simp only at h1 h2 h3 h4
    subst h1
    subst h2
    subst h3
    subst h4
    have hfold : handlePvMultiResult
        [⟨1, p1, v1, i1⟩, ⟨2, p2, v2, i2⟩, ⟨3, p3, v3, i3⟩, ⟨4, p4, v4, i4⟩] =
        renderChannel (renderChannel (renderChannel (renderChannel [("id", 0)]
          ⟨1, p1, v1, i1⟩) ⟨2, p2, v2, i2⟩) ⟨3, p3, v3, i3⟩) ⟨4, p4, v4, i4⟩ := by
      have htake : List.take 4 [(⟨1, p1, v1, i1⟩ : PVChannel), ⟨2, p2, v2, i2⟩,
          ⟨3, p3, v3, i3⟩, ⟨4, p4, v4, i4⟩] =
          [⟨1, p1, v1, i1⟩, ⟨2, p2, v2, i2⟩, ⟨3, p3, v3, i3⟩, ⟨4, p4, v4, i4⟩] := rfl
      simp only [handlePvMultiResult, htake, List.foldl_cons, List.foldl_nil]
    rw [hfold, renderChannel_1, renderChannel_2, renderChannel_3, renderChannel_4]
    refine ⟨?_, ?_, ?_, ?_⟩
    · rw [assocLookup_assocSet_ne _ _ _ _ (by decide),
        assocLookup_assocSet_ne _ _ _ _ (by decide),
        assocLookup_assocSet_ne _ _ _ _ (by decide),
        assocLookup_assocSet_ne _ _ _ _ (by decide),
        assocLookup_assocSet_ne _ _ _ _ (by decide),
        assocLookup_assocSet_ne _ _ _ _ (by decide),
        assocLookup_assocSet_ne _ _ _ _ (by decide),
        assocLookup_assocSet_ne _ _ _ _ (by decide),
        assocLookup_assocSet_ne _ _ _ _ (by decide),
        assocLookup_assocSet_ne _ _ _ _ (by decide),
        assocLookup_assocSet_ne _ _ _ _ (by decide),
        assocLookup_assocSet_ne _ _ _ _ (by decide),
        assocLookup_assocSet_ne _ _ _ _ (by decide),
        assocLookup_assocSet_ne _ _ _ _ (by decide),
        assocLookup_assocSet_ne _ _ _ _ (by decide),
        assocLookup_assocSet_self]
      simp [toDeciwatts]
    · rw [assocLookup_assocSet_ne _ _ _ _ (by decide),
        assocLookup_assocSet_ne _ _ _ _ (by decide),
        assocLookup_assocSet_ne _ _ _ _ (by decide),
        assocLookup_assocSet_ne _ _ _ _ (by decide),
        assocLookup_assocSet_ne _ _ _ _ (by decide),
        assocLookup_assocSet_ne _ _ _ _ (by decide),
        assocLookup_assocSet_ne _ _ _ _ (by decide),
        assocLookup_assocSet_ne _ _ _ _ (by decide),
        assocLookup_assocSet_ne _ _ _ _ (by decide),
        assocLookup_assocSet_ne _ _ _ _ (by decide),
        assocLookup_assocSet_ne _ _ _ _ (by decide),
        assocLookup_assocSet_self]
      simp [toDeciwatts]
    · rw [assocLookup_assocSet_ne _ _ _ _ (by decide),
        assocLookup_assocSet_ne _ _ _ _ (by decide),
        assocLookup_assocSet_ne _ _ _ _ (by decide),
        assocLookup_assocSet_ne _ _ _ _ (by decide),
        assocLookup_assocSet_ne _ _ _ _ (by decide),
        assocLookup_assocSet_ne _ _ _ _ (by decide),
        assocLookup_assocSet_ne _ _ _ _ (by decide),
        assocLookup_assocSet_self]
      simp [toDeciwatts]
    · rw [assocLookup_assocSet_ne _ _ _ _ (by decide),
        assocLookup_assocSet_ne _ _ _ _ (by decide),
        assocLookup_assocSet_ne _ _ _ _ (by decide),
        assocLookup_assocSet_self]
      simp [toDeciwatts]
  · intro p v c
    rfl

/-- Witness for C9: concrete channel powers 100/200/300/400 render as
1000/200/300/400. -/
theorem pv_channel1_deciwatt_correction_witness :
    assocLookup (handlePvMultiResult
      [⟨1, 100, 30, 5⟩, ⟨2, 200, 31, 6⟩, ⟨3, 300, 32, 7⟩, ⟨4, 400, 33, 8⟩]) "pv1_power" =
      Option.some ((100 : ℚ) * 10) :=
  (pv_channel1_deciwatt_correction.1 ⟨1, 100, 30, 5⟩ ⟨2, 200, 31, 6⟩ ⟨3, 300, 32, 7⟩
    ⟨4, 400, 33, 8⟩ rfl rfl rfl rfl).1

/-! ## Passive charge write-then-read (claim C4) -/

theorem pyTrunc_intCast (n : ℤ) : pyTrunc ((n : ℤ) : ℚ) = n := by
  unfold pyTrunc
  split_ifs
  · exact Int.floor_intCast n
  · exact Int.ceil_intCast n

/-- What the immediate recompute stores as `actual_power` when the mode is
Passive with a stored charge target `-P` inside every limit. -/
theorem computePower_passive_formula (st : SimState) (env : PowerEnv) (clock : ClockEnv)
    (P : ℤ) (hmode : st.mode = "Passive") (htp : st.target_power = -P)
    (hP : 0 < P) (hmc : P ≤ st.max_charge_power) (hmd : 0 ≤ st.max_discharge_power)
    (hsoc : st.soc < 90) (hpct : st.power_fluctuation_pct = 5) :
    (computePower st env clock).actual_power =
      pyTrunc (((-P : ℤ) : ℚ) + ((-P : ℤ) : ℚ) * (env.fluct * 5 / 100)) := by
  have hcalc : calculateTargetPower
      { st with gross_household_consumption := env.household } clock = -P := by
    simp [calculateTargetPower, hmode, htp]
  have hsoclim : applySocLimits st.soc (-P) = -P := by
    simp only [applySocLimits, SOC_MIN_DISCHARGE, SOC_TAPER_CHARGE, SOC_TAPER_DISCHARGE]
    split_ifs with h1 h2 h3 h4 h5
    · exact absurd h1.1 (by omega)
    · exact absurd h2.2 (by linarith)
    · exact absurd h3.2 (by linarith)
    · exact absurd h3.2 (by linarith)
    · exact absurd h5.1 (by omega)
    · rfl
  have hne : max (-st.max_charge_power) (min st.max_discharge_power (-P)) = -P := by
    rw [min_eq_right (by omega), max_eq_right (by omega)]
  simp only [computePower, updatePhasePowers, hcalc, hsoclim, hne]
  rw [hpct, if_pos (by omega : (-P : ℤ) ≠ 0)]

/-- Truncated-magnitude band of the fluctuated charge power. -/
theorem pyTrunc_charge_band (P : ℤ) (f : ℚ) (hP : 54 ≤ P) (hf1 : -1 ≤ f) (hf2 : f ≤ 1) :
    pyTrunc (((-P : ℤ) : ℚ) + ((-P : ℤ) : ℚ) * (f * 5 / 100)) < -50 ∧
    ⌊(19 * (P : ℚ)) / 20⌋ ≤ -pyTrunc (((-P : ℤ) : ℚ) + ((-P : ℤ) : ℚ) * (f * 5 / 100)) ∧
    -pyTrunc (((-P : ℤ) : ℚ) + ((-P : ℤ) : ℚ) * (f * 5 / 100)) ≤ ⌊(21 * (P : ℚ)) / 20⌋ := by
  have hPQ : (54 : ℚ) ≤ (P : ℚ) := by exact_mod_cast hP
  have hq : ((-P : ℤ) : ℚ) + ((-P : ℤ) : ℚ) * (f * 5 / 100) =
      -((P : ℚ) * (20 + f) / 20) := by
    push_cast
    ring
  have hlo : (19 * (P : ℚ)) / 20 ≤ (P : ℚ) * (20 + f) / 20 := by nlinarith
  have hhi : (P : ℚ) * (20 + f) / 20 ≤ (21 * (P : ℚ)) / 20 := by nlinarith
  have hpos : (0 : ℚ) < (P : ℚ) * (20 + f) / 20 := by nlinarith
  have htr : pyTrunc (((-P : ℤ) : ℚ) + ((-P : ℤ) : ℚ) * (f * 5 / 100)) =
      -⌊(P : ℚ) * (20 + f) / 20⌋ := by
    rw [hq]
    unfold pyTrunc
    rw [if_neg (by linarith), Int.ceil_neg]
  have h51 : (51 : ℤ) ≤ ⌊(P : ℚ) * (20 + f) / 20⌋ := by
    rw [Int.le_floor]
    push_cast
    nlinarith
  refine ⟨?_, ?_, ?_⟩
  · rw [htr]
    omega
  · rw [htr, neg_neg]
    exact Int.floor_le_floor hlo
  · rw [htr, neg_neg]
    exact Int.floor_le_floor hhi

/-- C4 counterexample: a Passive charge request of 10 W — well inside the
power limit, at SOC 50 — produces `actual_power = -10` and the idle status
label immediately after the call, not the charging label: the claim fails
for small charge powers because the status threshold requires a magnitude
above 50 W. -/
theorem passive_small_charge_not_charging :
    (getStateView (setMode (initSim 50) "Passive"
        (Option.some { ModeConfig.empty with power := Option.some (-10), cd_time := Option.some 3600 })
        1000 { household := 0, fluct := 0, aRand := 0, bRand := 0, heatR := 1, coolR := 1 }
        { currentTime := "12:00", currentDay := 0, hour := 12 })).status = STATUS_IDLE ∧
    STATUS_IDLE ≠ STATUS_CHARGING := by
  have hsm : setMode (initSim 50) "Passive"
      (Option.some { ModeConfig.empty with power := Option.some (-10), cd_time := Option.some 3600 })
      1000 { household := 0, fluct := 0, aRand := 0, bRand := 0, heatR := 1, coolR := 1 }
      { currentTime := "12:00", currentDay := 0, hour := 12 } =
      computePower { initSim 50 with mode := "Passive", target_power := -10, passive_end_time := Option.some (1000 + 3600) }
        { household := 0, fluct := 0, aRand := 0, bRand := 0, heatR := 1, coolR := 1 }
        { currentTime := "12:00", currentDay := 0, hour := 12 } := by
    unfold setMode
    rw [dif_pos ⟨rfl, rfl⟩]
    rfl
  have hkey := computePower_passive_formula
    { initSim 50 with mode := "Passive", target_power := -10, passive_end_time := Option.some (1000 + 3600) }
    { household := 0, fluct := 0, aRand := 0, bRand := 0, heatR := 1, coolR := 1 }
    { currentTime := "12:00", currentDay := 0, hour := 12 }
    10 rfl rfl (by norm_num) (by norm_num [initSim, DEFAULT_MAX_CHARGE_POWER])
    (by norm_num [initSim, DEFAULT_MAX_DISCHARGE_POWER]) (by norm_num [initSim])
    (by norm_num [initSim, DEFAULT_POWER_FLUCTUATION_PCT])
  have hval : pyTrunc (((-10 : ℤ) : ℚ) + ((-10 : ℤ) : ℚ) * ((0 : ℚ) * 5 / 100)) =
      (-10 : ℤ) := by
    have h : ((-10 : ℤ) : ℚ) + ((-10 : ℤ) : ℚ) * ((0 : ℚ) * 5 / 100) = ((-10 : ℤ) : ℚ) := by
      push_cast
      ring
    rw [h, pyTrunc_intCast]
  constructor
  · rw [hsm]
    simp only [getStateView]
    rw [hkey, hval]
    norm_num [STATUS_IDLE]
  · decide

/-- C4 (amended): for every charge power P with 54 ≤ P ≤ the configured
charge limit, SOC below the taper threshold 90, the default 5% fluctuation
setting and a nonnegative discharge limit, setting Passive mode with power
−P yields — immediately after the call, before any tick, and for every
fluctuation draw in [−1, 1] — a negative `actual_power` whose magnitude
lies in the ±5% band of P widened to integers,
`⌊0.95·P⌋ ≤ |actual_power| ≤ ⌊1.05·P⌋`, and a state whose status is the
charging label "Buying".  (Below 54 W the truncated magnitude can drop to
the 50 W status threshold, as the counterexample shows.) -/
theorem passive_charge_immediate_status :
    ∀ (st : SimState) (P : ℤ) (T now : ℚ) (env : PowerEnv) (clock : ClockEnv),
      54 ≤ P → P ≤ st.max_charge_power → 0 ≤ st.max_discharge_power →
      st.soc < 90 → st.power_fluctuation_pct = 5 → -1 ≤ env.fluct → env.fluct ≤ 1 →
      (setMode st "Passive"
          (Option.some { ModeConfig.empty with power := Option.some (-P), cd_time := Option.some T })
          now env clock).actual_power < 0 ∧
      ⌊(19 * (P : ℚ)) / 20⌋ ≤
        -(setMode st "Passive"
          (Option.some { ModeConfig.empty with power := Option.some (-P), cd_time := Option.some T })
          now env clock).actual_power ∧
      -(setMode st "Passive"
          (Option.some { ModeConfig.empty with power := Option.some (-P), cd_time := Option.some T })
          now env clock).actual_power ≤ ⌊(21 * (P : ℚ)) / 20⌋ ∧
      (getStateView (setMode st "Passive"
          (Option.some { ModeConfig.empty with power := Option.some (-P), cd_time := Option.some T })
          now env clock)).status = STATUS_CHARGING := by
  intro st P T now env clock hP hmc hmd hsoc hpct hf1 hf2
  have hsm : setMode st "Passive"
      (Option.some { ModeConfig.empty with power := Option.some (-P), cd_time := Option.some T })
      now env clock =
      computePower { st with mode := "Passive", target_power := -P, passive_end_time := Option.some (now + T) }
        env clock := by
    unfold setMode
    rw [dif_pos ⟨rfl, rfl⟩]
    rfl
  have hkey := computePower_passive_formula
    { st with mode := "Passive", target_power := -P, passive_end_time := Option.some (now + T) }
    env clock P rfl rfl (by omega) hmc hmd hsoc hpct
  obtain ⟨hb1, hb2, hb3⟩ := pyTrunc_charge_band P env.fluct hP hf1 hf2
  refine ⟨?_, ?_, ?_, ?_⟩
  · rw [hsm, hkey]
    omega
  · rw [hsm, hkey]
    exact hb2
  · rw [hsm, hkey]
    exact hb3
  · rw [hsm]
    simp only [getStateView]
    rw [hkey, if_pos hb1]

/-- Witness for C4: a 1400 W passive charge at SOC 50 with the central
fluctuation draw reads back as charging with magnitude in [1330, 1470]. -/
theorem passive_charge_immediate_status_witness :
    (getStateView (setMode (initSim 50) "Passive"
        (Option.some { ModeConfig.empty with power := Option.some (-1400), cd_time := Option.some 3600 })
        1000 { household := 0, fluct := 0, aRand := 0, bRand := 0, heatR := 1, coolR := 1 }
        { currentTime := "12:00", currentDay := 0, hour := 12 })).status = STATUS_CHARGING :=
  (passive_charge_immediate_status (initSim 50) 1400 3600 1000
    { household := 0, fluct := 0, aRand := 0, bRand := 0, heatR := 1, coolR := 1 }
    { currentTime := "12:00", currentDay := 0, hour := 12 }
    (by norm_num) (by norm_num [initSim, DEFAULT_MAX_CHARGE_POWER])
    (by norm_num [initSim, DEFAULT_MAX_DISCHARGE_POWER]) (by norm_num [initSim])
    (by norm_num [initSim, DEFAULT_POWER_FLUCTUATION_PCT])
    (by norm_num) (by norm_num)).2.2.2

end Marstek
